import Mathlib

/-!
# Verification of the `dirwatch` directory watcher (src/src/filemanager/dirwatch.c)

Shallow embedding of the inotify-based debounced directory watcher of
Midnight Commander.  The C module keeps its state in file-scope globals
(`inotify_fd`, `timer_fd`, `wd_left`, `wd_right`, `left_path`, `right_path`,
`watcher_enabled`, `watcher_quiet`, `pending_left`, `pending_right`); we
gather them into a structure `DWState`.  File descriptors and watch
descriptors are C `int`s with `-1` as the "absent" sentinel, so they are
modelled as `Int` with the same convention.  Paths are `Option String`
(`NULL` pointer = `none`).

Results of kernel calls and of panel queries made during one operation
(`inotify_init1`, `timerfd_create`, `inotify_add_watch`,
`dirwatch_panel_should_watch`, panel non-NULLness) are supplied by an
environment record `Env`, one per invocation.

Side effects on the outside world (watch removal/addition, panel reloads,
screen repaint, timer arming/disarming, select-channel registration) are
recorded in an event trace `List DWEvent`; each operation returns the new
state paired with its trace.  The armed/disarmed status of the timerfd
object is tracked in the boolean field `timer_armed`; a freshly created
timerfd is disarmed, so creating a timer descriptor resets the flag.
-/

/-- Observable side effects of the watcher on its collaborators, in order. -/
inductive DWEvent where
  | rmWatch : Int → DWEvent
  | addWatch : String → DWEvent
  | reloadLeft : DWEvent
  | reloadRight : DWEvent
  | repaint : DWEvent
  | armTimer : DWEvent
  | disarmTimer : DWEvent
  | addChannel : Int → DWEvent
  | delChannel : Int → DWEvent
  | closeFd : Int → DWEvent
deriving DecidableEq, Repr, BEq

/-- The file-scope globals of dirwatch.c, gathered into one state record. -/
structure DWState where
  inotify_fd : Int
  timer_fd : Int
  wd_left : Int
  wd_right : Int
  left_path : Option String
  right_path : Option String
  watcher_enabled : Bool
  watcher_quiet : Bool
  pending_left : Bool
  pending_right : Bool
  timer_armed : Bool
deriving DecidableEq, Repr

/-- Initial values of the globals at program start. -/
def dirwatch_init : DWState :=
  { inotify_fd := -1
    timer_fd := -1
    wd_left := -1
    wd_right := -1
    left_path := none
    right_path := none
    watcher_enabled := false
    watcher_quiet := false
    pending_left := false
    pending_right := false
    timer_armed := false }

/-- Results of the external queries and kernel calls an operation may make:
`leftEligible`/`rightEligible` is the outcome of `dirwatch_panel_should_watch`
for the respective panel (`some path` when watchable), `leftAddWatch` /
`rightAddWatch` the value `inotify_add_watch` would return for that panel's
path (negative on failure), `leftPanelPresent`/`rightPanelPresent` whether
`left_panel`/`right_panel` is non-NULL, and `inotifyInit` / `timerCreate`
the results of `inotify_init1` and `timerfd_create`. -/
structure Env where
  leftEligible : Option String
  rightEligible : Option String
  leftAddWatch : Int
  rightAddWatch : Int
  leftPanelPresent : Bool
  rightPanelPresent : Bool
  inotifyInit : Int
  timerCreate : Int
deriving DecidableEq, Repr

/-- The two watch slots (left and right panel). -/
inductive Slot where
  | left : Slot
  | right : Slot
deriving DecidableEq, Repr

/-- dirwatch.c `dirwatch_reset_paths`: free and NULL both path strings. -/
def dirwatch_reset_paths (s : DWState) : DWState :=
  { s with left_path := none, right_path := none }

/-- dirwatch.c `dirwatch_clear_watches`: if the inotify descriptor is open,
remove any registered watches; then set both watch descriptors to -1 and
reset both paths. -/
def dirwatch_clear_watches (s : DWState) : DWState × List DWEvent :=
  let evs :=
    if 0 ≤ s.inotify_fd then
      (if 0 ≤ s.wd_left then [DWEvent.rmWatch s.wd_left] else [])
        ++ (if 0 ≤ s.wd_right then [DWEvent.rmWatch s.wd_right] else [])
    else []
  (dirwatch_reset_paths { s with wd_left := -1, wd_right := -1 }, evs)

/-- dirwatch.c `dirwatch_disarm_timer`: zero the timerfd if present. -/
def dirwatch_disarm_timer (s : DWState) : DWState × List DWEvent :=
  if 0 ≤ s.timer_fd then
    ({ s with timer_armed := false }, [DWEvent.disarmTimer])
  else (s, [])

/-- dirwatch.c `dirwatch_arm_timer`: program the one-shot timerfd if
present (the debounce duration, coerced to a minimum of 1 second, does not
affect the state machine and is not tracked). -/
def dirwatch_arm_timer (s : DWState) : DWState × List DWEvent :=
  if 0 ≤ s.timer_fd then
    ({ s with timer_armed := true }, [DWEvent.armTimer])
  else (s, [])

/-- dirwatch.c `dirwatch_update_watches`, left-panel block: if the left
panel is watchable at `path` and the stored path differs (or is absent),
remove any old watch, call `inotify_add_watch` and store its result as the
new watch descriptor together with the path; if not watchable and a watch
descriptor is held, remove the watch and clear descriptor and path. -/
def dirwatch_update_left (env : Env) (s : DWState) : DWState × List DWEvent :=
  match env.leftEligible with
  | some path =>
      if s.left_path = some path then (s, [])
      else
        ({ s with wd_left := env.leftAddWatch, left_path := some path },
          (if 0 ≤ s.wd_left then [DWEvent.rmWatch s.wd_left] else [])
            ++ [DWEvent.addWatch path])
  | none =>
      if 0 ≤ s.wd_left then
        ({ s with wd_left := -1, left_path := none }, [DWEvent.rmWatch s.wd_left])
      else (s, [])

/-- dirwatch.c `dirwatch_update_watches`, right-panel block (mirror of the
left-panel block). -/
def dirwatch_update_right (env : Env) (s : DWState) : DWState × List DWEvent :=
  match env.rightEligible with
  | some path =>
      if s.right_path = some path then (s, [])
      else
        ({ s with wd_right := env.rightAddWatch, right_path := some path },
          (if 0 ≤ s.wd_right then [DWEvent.rmWatch s.wd_right] else [])
            ++ [DWEvent.addWatch path])
  | none =>
      if 0 ≤ s.wd_right then
        ({ s with wd_right := -1, right_path := none }, [DWEvent.rmWatch s.wd_right])
      else (s, [])

/-- dirwatch.c `dirwatch_update_watches`: no-op unless enabled with an open
inotify descriptor; otherwise run the left-panel block then the right-panel
block. -/
def dirwatch_update_watches (env : Env) (s : DWState) : DWState × List DWEvent :=
  if s.watcher_enabled = false ∨ s.inotify_fd < 0 then (s, [])
  else
    let l := dirwatch_update_left env s
    let r := dirwatch_update_right env l.1
    (r.1, l.2 ++ r.2)

/-- dirwatch.c `dirwatch_callback` (select-loop callback of the inotify
descriptor): ignore a foreign descriptor; otherwise drain all available
records (`evs` lists the watch descriptor of each drained record, in
order), compare each record's descriptor against both slots' current watch
descriptors independently, raise the matching pending flags, and if any
pending flag is set afterwards, arm the debounce timer. -/
def dirwatch_callback (fd : Int) (evs : List Int) (s : DWState) : DWState × List DWEvent :=
  if fd ≠ s.inotify_fd then (s, [])
  else
    let need_left := evs.any (fun w => w == s.wd_left)
    let need_right := evs.any (fun w => w == s.wd_right)
    let s1 := { s with
      pending_left := s.pending_left || need_left
      pending_right := s.pending_right || need_right }
    if s1.pending_left || s1.pending_right then dirwatch_arm_timer s1 else (s1, [])

/-- dirwatch.c `dirwatch_apply_pending`: snapshot and clear both pending
flags, reload each snapshot-flagged panel that is non-NULL, repaint once if
any flag was snapshot, and disarm the timer. -/
def dirwatch_apply_pending (env : Env) (s : DWState) : DWState × List DWEvent :=
  let do_left := s.pending_left
  let do_right := s.pending_right
  let s1 := { s with pending_left := false, pending_right := false }
  let reloads :=
    (if do_left && env.leftPanelPresent then [DWEvent.reloadLeft] else [])
      ++ (if do_right && env.rightPanelPresent then [DWEvent.reloadRight] else [])
      ++ (if do_left || do_right then [DWEvent.repaint] else [])
  let d := dirwatch_disarm_timer s1
  (d.1, reloads ++ d.2)

/-- dirwatch.c `dirwatch_timer_callback` (select-loop callback of the
timerfd): ignore a foreign descriptor; after draining the expiration count,
if quiet mode is active just disarm the timer, keeping the pending flags;
otherwise apply the pending flags. -/
def dirwatch_timer_callback (fd : Int) (env : Env) (s : DWState) : DWState × List DWEvent :=
  if fd ≠ s.timer_fd then (s, [])
  else if s.watcher_quiet then dirwatch_disarm_timer s
  else dirwatch_apply_pending env s

/-- dirwatch.c `dirwatch_set_enabled`: if the flag is unchanged, refresh
the watches (when enabled) and return.  Disabling unregisters and closes
both descriptors and clears the watches.  Enabling creates the inotify
descriptor (falling back to disabled if that fails), creates the timerfd
(continuing without a timer if that fails), registers both with the select
loop, and updates the watches. -/
def dirwatch_set_enabled (enabled : Bool) (env : Env) (s : DWState) : DWState × List DWEvent :=
  if enabled = s.watcher_enabled then
    if enabled then dirwatch_update_watches env s else (s, [])
  else
    let s0 := { s with watcher_enabled := enabled }
    if enabled = false then
      let i :=
        if 0 ≤ s0.inotify_fd then
          let c := dirwatch_clear_watches s0
          ({ c.1 with inotify_fd := -1 },
            DWEvent.delChannel s0.inotify_fd :: c.2 ++ [DWEvent.closeFd s0.inotify_fd])
        else (s0, [])
      let t :=
        if 0 ≤ i.1.timer_fd then
          ({ i.1 with timer_fd := -1 },
            [DWEvent.delChannel i.1.timer_fd, DWEvent.closeFd i.1.timer_fd])
        else (i.1, [])
      (t.1, i.2 ++ t.2)
    else
      let i :=
        if s0.inotify_fd < 0 then
          ({ s0 with inotify_fd := env.inotifyInit }, true)
        else (s0, false)
      if i.1.inotify_fd < 0 then
        ({ i.1 with watcher_enabled := false }, [])
      else
        let e1 := if i.2 then [DWEvent.addChannel i.1.inotify_fd] else []
        let t :=
          if i.1.timer_fd < 0 then
            let t1 := { i.1 with timer_fd := env.timerCreate, timer_armed := false }
            if 0 ≤ t1.timer_fd then (t1, [DWEvent.addChannel t1.timer_fd]) else (t1, [])
          else (i.1, [])
        let u := dirwatch_update_watches env t.1
        (u.1, e1 ++ t.2 ++ u.2)

/-- dirwatch.c `dirwatch_set_quiet`: no-op when disabled or when the flag
is unchanged; otherwise store the flag, and when leaving quiet mode with a
pending flag set, apply the pending flags immediately. -/
def dirwatch_set_quiet (quiet : Bool) (env : Env) (s : DWState) : DWState × List DWEvent :=
  if s.watcher_enabled = false ∨ s.watcher_quiet = quiet then (s, [])
  else
    let s1 := { s with watcher_quiet := quiet }
    if quiet = false ∧ (s1.pending_left || s1.pending_right) then
      dirwatch_apply_pending env s1
    else (s1, [])

/-- dirwatch.c `dirwatch_panel_dir_changed`: the panel argument is cast to
void and ignored; no-op when disabled, otherwise update the watches. -/
def dirwatch_panel_dir_changed (_slot : Slot) (env : Env) (s : DWState) :
    DWState × List DWEvent :=
  if s.watcher_enabled = false then (s, [])
  else dirwatch_update_watches env s

/-- One externally triggered transition of the watcher: a public call or a
select-loop callback, under an arbitrary environment. -/
inductive Step : DWState → DWState → Prop where
  | enable : ∀ (s : DWState) (b : Bool) (env : Env),
      Step s (dirwatch_set_enabled b env s).1
  | quietToggle : ∀ (s : DWState) (b : Bool) (env : Env),
      Step s (dirwatch_set_quiet b env s).1
  | dirChanged : ∀ (s : DWState) (sl : Slot) (env : Env),
      Step s (dirwatch_panel_dir_changed sl env s).1
  | notifReadable : ∀ (s : DWState) (fd : Int) (evs : List Int),
      Step s (dirwatch_callback fd evs s).1
  | timerExpiry : ∀ (s : DWState) (fd : Int) (env : Env),
      Step s (dirwatch_timer_callback fd env s).1

/-- States reachable from the initial globals by any sequence of calls. -/
inductive Reach : DWState → Prop where
  | init : Reach dirwatch_init
  | step : ∀ {s t : DWState}, Reach s → Step s t → Reach t

/-- The disabled-state shape: both descriptors absent, both bindings clear. -/
def DisabledClean (s : DWState) : Prop :=
  s.inotify_fd < 0 ∧ s.timer_fd < 0 ∧ s.wd_left = -1 ∧ s.wd_right = -1 ∧
    s.left_path = none ∧ s.right_path = none

/-- The state invariant maintained by every operation: a disabled watcher
is clean, an enabled watcher holds an open inotify descriptor, and a held
watch descriptor always comes with a stored path. -/
def DWInv (s : DWState) : Prop :=
  (s.watcher_enabled = false → DisabledClean s) ∧
    (s.watcher_enabled = true → 0 ≤ s.inotify_fd) ∧
    (0 ≤ s.wd_left → s.left_path ≠ none) ∧
    (0 ≤ s.wd_right → s.right_path ≠ none)

theorem dirwatch_update_left_frame (env : Env) (s : DWState) :
    (dirwatch_update_left env s).1.watcher_enabled = s.watcher_enabled ∧
    (dirwatch_update_left env s).1.inotify_fd = s.inotify_fd ∧
    (dirwatch_update_left env s).1.timer_fd = s.timer_fd ∧
    (dirwatch_update_left env s).1.watcher_quiet = s.watcher_quiet ∧
    (dirwatch_update_left env s).1.pending_left = s.pending_left ∧
    (dirwatch_update_left env s).1.pending_right = s.pending_right ∧
    (dirwatch_update_left env s).1.timer_armed = s.timer_armed ∧
    (dirwatch_update_left env s).1.wd_right = s.wd_right ∧
    (dirwatch_update_left env s).1.right_path = s.right_path := by
  unfold dirwatch_update_left
  cases env.leftEligible <;> dsimp <;> split <;> simp

theorem dirwatch_update_right_frame (env : Env) (s : DWState) :
    (dirwatch_update_right env s).1.watcher_enabled = s.watcher_enabled ∧
    (dirwatch_update_right env s).1.inotify_fd = s.inotify_fd ∧
    (dirwatch_update_right env s).1.timer_fd = s.timer_fd ∧
    (dirwatch_update_right env s).1.watcher_quiet = s.watcher_quiet ∧
    (dirwatch_update_right env s).1.pending_left = s.pending_left ∧
    (dirwatch_update_right env s).1.pending_right = s.pending_right ∧
    (dirwatch_update_right env s).1.timer_armed = s.timer_armed ∧
    (dirwatch_update_right env s).1.wd_left = s.wd_left ∧
    (dirwatch_update_right env s).1.left_path = s.left_path := by
  unfold dirwatch_update_right
  cases env.rightEligible <;> dsimp <;> split <;> simp

theorem dirwatch_update_left_wdpath (env : Env) (s : DWState) :
    0 ≤ (dirwatch_update_left env s).1.wd_left →
      (dirwatch_update_left env s).1.left_path ≠ none := by
  unfold dirwatch_update_left
  cases env.leftEligible <;> dsimp <;> split <;> simp_all

theorem dirwatch_update_right_wdpath (env : Env) (s : DWState) :
    0 ≤ (dirwatch_update_right env s).1.wd_right →
      (dirwatch_update_right env s).1.right_path ≠ none := by
  unfold dirwatch_update_right
  cases env.rightEligible <;> dsimp <;> split <;> simp_all

theorem dirwatch_update_watches_frame (env : Env) (s : DWState) :
    (dirwatch_update_watches env s).1.watcher_enabled = s.watcher_enabled ∧
    (dirwatch_update_watches env s).1.inotify_fd = s.inotify_fd ∧
    (dirwatch_update_watches env s).1.timer_fd = s.timer_fd ∧
    (dirwatch_update_watches env s).1.watcher_quiet = s.watcher_quiet ∧
    (dirwatch_update_watches env s).1.pending_left = s.pending_left ∧
    (dirwatch_update_watches env s).1.pending_right = s.pending_right ∧
    (dirwatch_update_watches env s).1.timer_armed = s.timer_armed := by
  unfold dirwatch_update_watches
  split
  · simp
  · have hl := dirwatch_update_left_frame env s
    have hr := dirwatch_update_right_frame env (dirwatch_update_left env s).1
    dsimp
    exact ⟨hr.1.trans hl.1, hr.2.1.trans hl.2.1, hr.2.2.1.trans hl.2.2.1,
      hr.2.2.2.1.trans hl.2.2.2.1, hr.2.2.2.2.1.trans hl.2.2.2.2.1,
      hr.2.2.2.2.2.1.trans hl.2.2.2.2.2.1, hr.2.2.2.2.2.2.1.trans hl.2.2.2.2.2.2.1⟩

theorem dirwatch_update_watches_inv (env : Env) (s : DWState) (h : DWInv s) :
    DWInv (dirwatch_update_watches env s).1 := by
  obtain ⟨h1, h2, h3, h4⟩ := h
  unfold dirwatch_update_watches
  split
  · exact ⟨h1, h2, h3, h4⟩
  · have hlf := dirwatch_update_left_frame env s
    have hrf := dirwatch_update_right_frame env (dirwatch_update_left env s).1
    have hlw := dirwatch_update_left_wdpath env s
    have hrw := dirwatch_update_right_wdpath env (dirwatch_update_left env s).1
    dsimp
    refine ⟨?_, ?_, ?_, hrw⟩
    · intro hd
      rw [hrf.1, hlf.1] at hd
      rename_i hguard
      exact absurd (Or.inl hd) hguard
    · intro he
      rw [hrf.1, hlf.1] at he
      rw [hrf.2.1, hlf.2.1]
      exact h2 he
    · rw [hrf.2.2.2.2.2.2.2.1, hrf.2.2.2.2.2.2.2.2]
      exact hlw

theorem DWInv_of_fields {s t : DWState} (h : DWInv s)
    (he : t.watcher_enabled = s.watcher_enabled) (hi : t.inotify_fd = s.inotify_fd)
    (ht : t.timer_fd = s.timer_fd) (hwl : t.wd_left = s.wd_left)
    (hwr : t.wd_right = s.wd_right) (hpl : t.left_path = s.left_path)
    (hpr : t.right_path = s.right_path) : DWInv t := by
  obtain ⟨h1, h2, h3, h4⟩ := h
  unfold DWInv DisabledClean
  rw [he, hi, ht, hwl, hwr, hpl, hpr]
  exact ⟨h1, h2, h3, h4⟩

theorem dirwatch_disarm_timer_frame (s : DWState) :
    (dirwatch_disarm_timer s).1.watcher_enabled = s.watcher_enabled ∧
    (dirwatch_disarm_timer s).1.inotify_fd = s.inotify_fd ∧
    (dirwatch_disarm_timer s).1.timer_fd = s.timer_fd ∧
    (dirwatch_disarm_timer s).1.wd_left = s.wd_left ∧
    (dirwatch_disarm_timer s).1.wd_right = s.wd_right ∧
    (dirwatch_disarm_timer s).1.left_path = s.left_path ∧
    (dirwatch_disarm_timer s).1.right_path = s.right_path ∧
    (dirwatch_disarm_timer s).1.watcher_quiet = s.watcher_quiet ∧
    (dirwatch_disarm_timer s).1.pending_left = s.pending_left ∧
    (dirwatch_disarm_timer s).1.pending_right = s.pending_right := by
  unfold dirwatch_disarm_timer
  split <;> simp

theorem dirwatch_arm_timer_frame (s : DWState) :
    (dirwatch_arm_timer s).1.watcher_enabled = s.watcher_enabled ∧
    (dirwatch_arm_timer s).1.inotify_fd = s.inotify_fd ∧
    (dirwatch_arm_timer s).1.timer_fd = s.timer_fd ∧
    (dirwatch_arm_timer s).1.wd_left = s.wd_left ∧
    (dirwatch_arm_timer s).1.wd_right = s.wd_right ∧
    (dirwatch_arm_timer s).1.left_path = s.left_path ∧
    (dirwatch_arm_timer s).1.right_path = s.right_path ∧
    (dirwatch_arm_timer s).1.watcher_quiet = s.watcher_quiet ∧
    (dirwatch_arm_timer s).1.pending_left = s.pending_left ∧
    (dirwatch_arm_timer s).1.pending_right = s.pending_right := by
  unfold dirwatch_arm_timer
  split <;> simp

theorem dirwatch_apply_pending_frame (env : Env) (s : DWState) :
    (dirwatch_apply_pending env s).1.watcher_enabled = s.watcher_enabled ∧
    (dirwatch_apply_pending env s).1.inotify_fd = s.inotify_fd ∧
    (dirwatch_apply_pending env s).1.timer_fd = s.timer_fd ∧
    (dirwatch_apply_pending env s).1.wd_left = s.wd_left ∧
    (dirwatch_apply_pending env s).1.wd_right = s.wd_right ∧
    (dirwatch_apply_pending env s).1.left_path = s.left_path ∧
    (dirwatch_apply_pending env s).1.right_path = s.right_path ∧
    (dirwatch_apply_pending env s).1.watcher_quiet = s.watcher_quiet ∧
    (dirwatch_apply_pending env s).1.pending_left = false ∧
    (dirwatch_apply_pending env s).1.pending_right = false := by
  unfold dirwatch_apply_pending dirwatch_disarm_timer
  dsimp only
  split <;> simp

theorem dirwatch_set_quiet_inv (b : Bool) (env : Env) (s : DWState) (h : DWInv s) :
    DWInv (dirwatch_set_quiet b env s).1 := by
  unfold dirwatch_set_quiet
  split
  · exact h
  · dsimp only
    split
    · have hf := dirwatch_apply_pending_frame env { s with watcher_quiet := b }
      exact DWInv_of_fields h hf.1 hf.2.1 hf.2.2.1 hf.2.2.2.1 hf.2.2.2.2.1
        hf.2.2.2.2.2.1 hf.2.2.2.2.2.2.1
    · exact DWInv_of_fields h rfl rfl rfl rfl rfl rfl rfl

theorem dirwatch_callback_inv (fd : Int) (evs : List Int) (s : DWState) (h : DWInv s) :
    DWInv (dirwatch_callback fd evs s).1 := by
  unfold dirwatch_callback
  split
  · exact h
  · dsimp only
    split
    · have hf := dirwatch_arm_timer_frame
        { s with pending_left := s.pending_left || evs.any (fun w => w == s.wd_left),
                 pending_right := s.pending_right || evs.any (fun w => w == s.wd_right) }
      exact DWInv_of_fields h hf.1 hf.2.1 hf.2.2.1 hf.2.2.2.1 hf.2.2.2.2.1
        hf.2.2.2.2.2.1 hf.2.2.2.2.2.2.1
    · exact DWInv_of_fields h rfl rfl rfl rfl rfl rfl rfl

theorem dirwatch_timer_callback_inv (fd : Int) (env : Env) (s : DWState) (h : DWInv s) :
    DWInv (dirwatch_timer_callback fd env s).1 := by
  unfold dirwatch_timer_callback
  split
  · exact h
  · split
    · have hf := dirwatch_disarm_timer_frame s
      exact DWInv_of_fields h hf.1 hf.2.1 hf.2.2.1 hf.2.2.2.1 hf.2.2.2.2.1
        hf.2.2.2.2.2.1 hf.2.2.2.2.2.2.1
    · have hf := dirwatch_apply_pending_frame env s
      exact DWInv_of_fields h hf.1 hf.2.1 hf.2.2.1 hf.2.2.2.1 hf.2.2.2.2.1
        hf.2.2.2.2.2.1 hf.2.2.2.2.2.2.1

theorem dirwatch_panel_dir_changed_inv (sl : Slot) (env : Env) (s : DWState) (h : DWInv s) :
    DWInv (dirwatch_panel_dir_changed sl env s).1 := by
  unfold dirwatch_panel_dir_changed
  split
  · exact h
  · exact dirwatch_update_watches_inv env s h

theorem dirwatch_disable_noop (env : Env) (s : DWState)
    (h : s.watcher_enabled = false) :
    dirwatch_set_enabled false env s = (s, []) := by
  unfold dirwatch_set_enabled
  rw [if_pos (by rw [h]), if_neg (by simp)]

theorem dirwatch_disable_spec (env : Env) (s : DWState)
    (hen : s.watcher_enabled = true) (hio : 0 ≤ s.inotify_fd) :
    (dirwatch_set_enabled false env s).1 =
      { s with
        watcher_enabled := false, inotify_fd := -1,
        timer_fd := (if 0 ≤ s.timer_fd then (-1 : Int) else s.timer_fd),
        wd_left := -1, wd_right := -1, left_path := none, right_path := none } := by
  obtain ⟨i, t, wl, wr, lp, rp, en, q, pl, pr, ar⟩ := s
  dsimp at hen hio
  subst hen
  unfold dirwatch_set_enabled dirwatch_clear_watches dirwatch_reset_paths
  rw [if_neg (by simp)]
  dsimp only
  rw [if_pos rfl, if_pos hio]
  dsimp only
  split <;> rfl

theorem dirwatch_enable_clean_spec (env : Env) (s : DWState)
    (hsen : s.watcher_enabled = false) (hc : DisabledClean s) :
    (dirwatch_set_enabled true env s).1 =
      (if env.inotifyInit < 0 then { s with inotify_fd := env.inotifyInit }
      else (dirwatch_update_watches env
        { s with
          watcher_enabled := true, inotify_fd := env.inotifyInit,
          timer_fd := env.timerCreate, timer_armed := false }).1) := by
  obtain ⟨hi, ht, _, _, _, _⟩ := hc
  obtain ⟨i, t, wl, wr, lp, rp, en, q, pl, pr, ar⟩ := s
  dsimp at hsen hi ht
  subst hsen
  unfold dirwatch_set_enabled
  rw [if_neg (by simp)]
  dsimp only
  rw [if_neg (by simp), if_pos hi]
  dsimp only
  split
  · rfl
  · split <;> rfl

theorem dirwatch_set_enabled_inv (b : Bool) (env : Env) (s : DWState) (h : DWInv s) :
    DWInv (dirwatch_set_enabled b env s).1 := by
  obtain ⟨h1, h2, h3, h4⟩ := h
  by_cases heq : b = s.watcher_enabled
  · unfold dirwatch_set_enabled
    rw [if_pos heq]
    split
    · exact dirwatch_update_watches_inv env s ⟨h1, h2, h3, h4⟩
    · exact ⟨h1, h2, h3, h4⟩
  · cases b with
    | false =>
      have hen : s.watcher_enabled = true := by
        cases hsb : s.watcher_enabled
        · exact absurd hsb.symm heq
        · rfl
      rw [dirwatch_disable_spec env s hen (h2 hen)]
      refine ⟨fun _ => ⟨by simp, ?_, by simp, by simp, by simp, by simp⟩,
        by simp, by simp, by simp⟩
      dsimp only
      split <;> omega
    | true =>
      have hsen : s.watcher_enabled = false := by
        cases hsb : s.watcher_enabled
        · rfl
        · exact absurd hsb.symm heq
      have hc := h1 hsen
      rw [dirwatch_enable_clean_spec env s hsen hc]
      obtain ⟨hi, ht, hwl, hwr, hlp, hrp⟩ := hc
      split
      · exact ⟨fun _ => ⟨by simpa using (by assumption), by simp [ht], by simp [hwl],
        by simp [hwr], by simp [hlp], by simp [hrp]⟩, by simp [hsen], by simp [hwl],
        by simp [hwr]⟩
      · rename_i hgood
        refine dirwatch_update_watches_inv env _ ⟨?_, ?_, ?_, ?_⟩
        · intro hd
          simp at hd
        · intro _
          dsimp only
          omega
        · dsimp only
          rw [hwl]
          intro hcon
          omega
        · dsimp only
          rw [hwr]
          intro hcon
          omega

theorem dirwatch_step_inv {s t : DWState} (h : DWInv s) (hs : Step s t) : DWInv t := by
  cases hs with
  | enable b env => exact dirwatch_set_enabled_inv b env s h
  | quietToggle b env => exact dirwatch_set_quiet_inv b env s h
  | dirChanged sl env => exact dirwatch_panel_dir_changed_inv sl env s h
  | notifReadable fd evs => exact dirwatch_callback_inv fd evs s h
  | timerExpiry fd env => exact dirwatch_timer_callback_inv fd env s h

/-- Every reachable state satisfies the watcher invariant. -/
theorem dirwatch_reach_inv {s : DWState} (h : Reach s) : DWInv s := by
  induction h with
  | init => exact ⟨fun _ => by simp [dirwatch_init, DisabledClean], by simp [dirwatch_init],
      by simp [dirwatch_init], by simp [dirwatch_init]⟩
  | step _ hs ih => exact dirwatch_step_inv ih hs

theorem dirwatch_update_left_matched (env : Env) (s : DWState) (p : String)
    (h1 : env.leftEligible = some p) (h2 : s.left_path = some p) :
    dirwatch_update_left env s = (s, []) := by
  unfold dirwatch_update_left
  rw [h1]
  dsimp only
  rw [if_pos h2]

theorem dirwatch_update_right_matched (env : Env) (s : DWState) (p : String)
    (h1 : env.rightEligible = some p) (h2 : s.right_path = some p) :
    dirwatch_update_right env s = (s, []) := by
  unfold dirwatch_update_right
  rw [h1]
  dsimp only
  rw [if_pos h2]

/-- The left-slot no-op condition: the slot already agrees with the current
eligibility outcome. -/
def LeftMatched (env : Env) (s : DWState) : Prop :=
  match env.leftEligible with
  | some p => s.left_path = some p
  | none => ¬ 0 ≤ s.wd_left

/-- The right-slot no-op condition. -/
def RightMatched (env : Env) (s : DWState) : Prop :=
  match env.rightEligible with
  | some p => s.right_path = some p
  | none => ¬ 0 ≤ s.wd_right

theorem dirwatch_update_left_noop (env : Env) (s : DWState)
    (h : LeftMatched env s) : dirwatch_update_left env s = (s, []) := by
  unfold LeftMatched at h
  unfold dirwatch_update_left
  cases he : env.leftEligible with
  | none =>
      rw [he] at h
      dsimp only
      rw [if_neg h]
  | some p =>
      rw [he] at h
      dsimp only
      rw [if_pos h]

theorem dirwatch_update_right_noop (env : Env) (s : DWState)
    (h : RightMatched env s) : dirwatch_update_right env s = (s, []) := by
  unfold RightMatched at h
  unfold dirwatch_update_right
  cases he : env.rightEligible with
  | none =>
      rw [he] at h
      dsimp only
      rw [if_neg h]
  | some p =>
      rw [he] at h
      dsimp only
      rw [if_pos h]

theorem dirwatch_update_left_post (env : Env) (s : DWState) :
    LeftMatched env (dirwatch_update_left env s).1 := by
  unfold LeftMatched dirwatch_update_left
  cases he : env.leftEligible <;> dsimp only <;> split <;> simp_all

theorem dirwatch_update_right_post (env : Env) (s : DWState) :
    RightMatched env (dirwatch_update_right env s).1 := by
  unfold RightMatched dirwatch_update_right
  cases he : env.rightEligible <;> dsimp only <;> split <;> simp_all

theorem LeftMatched_of_fields (env : Env) {s t : DWState} (h : LeftMatched env s)
    (hp : t.left_path = s.left_path) (hw : t.wd_left = s.wd_left) :
    LeftMatched env t := by
  unfold LeftMatched at h ⊢
  cases he : env.leftEligible <;> rw [he] at h <;> simp [hp, hw, h]

theorem RightMatched_of_fields (env : Env) {s t : DWState} (h : RightMatched env s)
    (hp : t.right_path = s.right_path) (hw : t.wd_right = s.wd_right) :
    RightMatched env t := by
  unfold RightMatched at h ⊢
  cases he : env.rightEligible <;> rw [he] at h <;> simp [hp, hw, h]

theorem dirwatch_update_watches_idem (env : Env) (s : DWState) :
    dirwatch_update_watches env (dirwatch_update_watches env s).1
      = ((dirwatch_update_watches env s).1, []) := by
  unfold dirwatch_update_watches
  split
  · rfl
  · rename_i hguard
    dsimp only
    set s2 := (dirwatch_update_right env (dirwatch_update_left env s).1).1 with hs2
    have hrf := dirwatch_update_right_frame env (dirwatch_update_left env s).1
    have hlf := dirwatch_update_left_frame env s
    have hg2 : ¬ (s2.watcher_enabled = false ∨ s2.inotify_fd < 0) := by
      rw [hs2, hrf.1, hlf.1, hrf.2.1, hlf.2.1]
      exact hguard
    rw [if_neg hg2]
    have hlm : LeftMatched env s2 :=
      LeftMatched_of_fields env (dirwatch_update_left_post env s)
        (hs2 ▸ hrf.2.2.2.2.2.2.2.2) (hs2 ▸ hrf.2.2.2.2.2.2.2.1)
    have hl2 : dirwatch_update_left env s2 = (s2, []) := dirwatch_update_left_noop env s2 hlm
    rw [hl2]
    have hr2 : dirwatch_update_right env s2 = (s2, []) :=
      dirwatch_update_right_noop env s2 (dirwatch_update_right_post env _)
    rw [hr2]
    rfl

theorem dirwatch_set_enabled_quiet (b : Bool) (env : Env) (s : DWState) :
    (dirwatch_set_enabled b env s).1.watcher_quiet = s.watcher_quiet := by
  unfold dirwatch_set_enabled
  dsimp only
  repeat' split
  all_goals first
    | rfl
    | exact (dirwatch_update_watches_frame env _).2.2.2.1

/-- A benign environment: both panels eligible at distinct paths, all kernel
calls succeed. -/
def envBoot : Env :=
  { leftEligible := some "/tmp", rightEligible := some "/var",
    leftAddWatch := 5, rightAddWatch := 6,
    leftPanelPresent := true, rightPanelPresent := true,
    inotifyInit := 3, timerCreate := 4 }

/-- Like `envBoot`, but `inotify_add_watch` fails for the left panel. -/
def envAddFail : Env := { envBoot with leftAddWatch := -1 }

/-- Like `envBoot`, but the right panel has navigated to a new directory. -/
def envMove : Env := { envBoot with rightEligible := some "/home", rightAddWatch := 7 }

/-- Like `envBoot`, but `timerfd_create` fails. -/
def envTimerFail : Env := { envBoot with timerCreate := -1 }

/-- Like `envBoot`, but `inotify_init1` fails. -/
def envInitFail : Env := { envBoot with inotifyInit := -1 }

/-- The state after enabling the watcher from scratch under `envBoot`. -/
def stateBoot : DWState := (dirwatch_set_enabled true envBoot dirwatch_init).1

/-- `stateBoot` after one inotify record for the left panel's watch. -/
def statePending : DWState := (dirwatch_callback 3 [5] stateBoot).1

theorem reach_stateBoot : Reach stateBoot :=
  Reach.step Reach.init (Step.enable dirwatch_init true envBoot)

theorem reach_statePending : Reach statePending :=
  Reach.step reach_stateBoot (Step.notifReadable stateBoot 3 [5])

/-- C1 (counterexample): the claim that `dirwatch_set_enabled FALSE` clears
both pending flags is false — there is a reachable state (enable, then one
inotify record for the left watch) from which disabling leaves
`pending_left` still set. -/
theorem C1_cex : ∃ s : DWState, Reach s ∧
    ¬ ((dirwatch_set_enabled false envBoot s).1.pending_left = false ∧
       (dirwatch_set_enabled false envBoot s).1.pending_right = false) := by
  refine ⟨statePending, reach_statePending, ?_⟩
  intro hcl
  exact absurd hcl.1 (by decide)

/-- C1 (amended): after `dirwatch_set_enabled FALSE` from any reachable
state, the watcher is disabled, both descriptors and both bindings are
absent, but the two pending flags keep their previous values — they are
not cleared by disabling. -/
theorem C1_theorem (s : DWState) (env : Env) (h : Reach s) :
    (dirwatch_set_enabled false env s).1.watcher_enabled = false ∧
    (dirwatch_set_enabled false env s).1.inotify_fd < 0 ∧
    (dirwatch_set_enabled false env s).1.timer_fd < 0 ∧
    (dirwatch_set_enabled false env s).1.wd_left = -1 ∧
    (dirwatch_set_enabled false env s).1.wd_right = -1 ∧
    (dirwatch_set_enabled false env s).1.left_path = none ∧
    (dirwatch_set_enabled false env s).1.right_path = none ∧
    (dirwatch_set_enabled false env s).1.pending_left = s.pending_left ∧
    (dirwatch_set_enabled false env s).1.pending_right = s.pending_right := by
  obtain ⟨h1, h2, h3, h4⟩ := dirwatch_reach_inv h
  cases hsb : s.watcher_enabled with
  | false =>
      rw [dirwatch_disable_noop env s hsb]
      obtain ⟨c1, c2, c3, c4, c5, c6⟩ := h1 hsb
      exact ⟨hsb, c1, c2, c3, c4, c5, c6, rfl, rfl⟩
  | true =>
      rw [dirwatch_disable_spec env s hsb (h2 hsb)]
      refine ⟨rfl, ?_, ?_, rfl, rfl, rfl, rfl, rfl, rfl⟩
      · dsimp only
        decide
      · dsimp only
        split
        · decide
        · omega

/-- C1 (witness): the amended theorem applied to the initial state. -/
theorem C1_witness :
    (dirwatch_set_enabled false envBoot dirwatch_init).1.watcher_enabled = false ∧
    (dirwatch_set_enabled false envBoot dirwatch_init).1.inotify_fd < 0 ∧
    (dirwatch_set_enabled false envBoot dirwatch_init).1.timer_fd < 0 ∧
    (dirwatch_set_enabled false envBoot dirwatch_init).1.wd_left = -1 ∧
    (dirwatch_set_enabled false envBoot dirwatch_init).1.wd_right = -1 ∧
    (dirwatch_set_enabled false envBoot dirwatch_init).1.left_path = none ∧
    (dirwatch_set_enabled false envBoot dirwatch_init).1.right_path = none ∧
    (dirwatch_set_enabled false envBoot dirwatch_init).1.pending_left
      = dirwatch_init.pending_left ∧
    (dirwatch_set_enabled false envBoot dirwatch_init).1.pending_right
      = dirwatch_init.pending_right :=
  C1_theorem dirwatch_init envBoot Reach.init

/-- C2 (counterexample): the claimed invariant "watch handle present iff
path present" is false — after a failed `inotify_add_watch` the path is
stored while the handle is absent. -/
theorem C2_cex : ∃ s : DWState, Reach s ∧
    ¬ (0 ≤ s.wd_left ↔ s.left_path ≠ none) := by
  refine ⟨(dirwatch_set_enabled true envAddFail dirwatch_init).1,
    Reach.step Reach.init (Step.enable dirwatch_init true envAddFail), ?_⟩
  intro hiff
  exact absurd (hiff.2 (by decide)) (by decide)

/-- C2 (amended): in every reachable state a held watch handle implies a
stored path, but not conversely: when registration for an eligible path
fails (negative `inotify_add_watch` result), the attempted path is stored
with the failed descriptor, so the binding is not left unset. -/
theorem C2_theorem (s : DWState) (h : Reach s) :
    (0 ≤ s.wd_left → s.left_path ≠ none) ∧
    (0 ≤ s.wd_right → s.right_path ≠ none) ∧
    (∀ (env : Env) (p : String), env.leftEligible = some p → s.left_path ≠ some p →
      env.leftAddWatch < 0 →
      (dirwatch_update_left env s).1.left_path = some p ∧
      (dirwatch_update_left env s).1.wd_left < 0) := by
  obtain ⟨h1, h2, h3, h4⟩ := dirwatch_reach_inv h
  refine ⟨h3, h4, ?_⟩
  intro env p hp hne hfail
  unfold dirwatch_update_left
  rw [hp]
  dsimp only
  rw [if_neg hne]
  exact ⟨rfl, hfail⟩

/-- C2 (witness): the amended theorem applied to the initial state with a
failing registration environment. -/
theorem C2_witness :
    (dirwatch_update_left envAddFail dirwatch_init).1.left_path = some "/tmp" ∧
    (dirwatch_update_left envAddFail dirwatch_init).1.wd_left < 0 :=
  (C2_theorem dirwatch_init Reach.init).2.2 envAddFail "/tmp" rfl (by decide) (by decide)

/-- C7 (counterexample): the claim that failure to create either the
kernel notification source or the timer source makes the watcher fall back
to disabled is false — when only `timerfd_create` fails during enabling,
the watcher stays enabled (with no timer descriptor). -/
theorem C7_cex :
    (dirwatch_set_enabled true envTimerFail dirwatch_init).1.watcher_enabled = true ∧
    (dirwatch_set_enabled true envTimerFail dirwatch_init).1.timer_fd < 0 := by
  exact ⟨by decide, by decide⟩

/-- C7 (amended): enabling from a clean disabled state falls back to
disabled (silently, with no bindings) only when `inotify_init1` fails;
when it succeeds the watcher becomes enabled even if `timerfd_create`
fails, merely recording the failed timer descriptor. -/
theorem C7_theorem (env : Env) (s : DWState)
    (hsen : s.watcher_enabled = false) (hc : DisabledClean s) :
    (env.inotifyInit < 0 →
      (dirwatch_set_enabled true env s).1.watcher_enabled = false ∧
      (dirwatch_set_enabled true env s).1.inotify_fd < 0 ∧
      (dirwatch_set_enabled true env s).1.timer_fd < 0 ∧
      (dirwatch_set_enabled true env s).1.wd_left = -1 ∧
      (dirwatch_set_enabled true env s).1.wd_right = -1) ∧
    (0 ≤ env.inotifyInit →
      (dirwatch_set_enabled true env s).1.watcher_enabled = true ∧
      (dirwatch_set_enabled true env s).1.inotify_fd = env.inotifyInit ∧
      (dirwatch_set_enabled true env s).1.timer_fd = env.timerCreate) := by
  rw [dirwatch_enable_clean_spec env s hsen hc]
  obtain ⟨hi, ht, hwl, hwr, hlp, hrp⟩ := hc
  constructor
  · intro hfail
    rw [if_pos hfail]
    exact ⟨hsen, hfail, ht, hwl, hwr⟩
  · intro hok
    rw [if_neg (by omega)]
    have hf := dirwatch_update_watches_frame env
      { s with
        watcher_enabled := true, inotify_fd := env.inotifyInit,
        timer_fd := env.timerCreate, timer_armed := false }
    exact ⟨hf.1, hf.2.1, hf.2.2.1⟩

/-- C7 (witness): the amended theorem at the initial state, once with a
failing `inotify_init1` and once with a failing `timerfd_create`. -/
theorem C7_witness :
    (dirwatch_set_enabled true envInitFail dirwatch_init).1.watcher_enabled = false ∧
    (dirwatch_set_enabled true envTimerFail dirwatch_init).1.watcher_enabled = true :=
  ⟨((C7_theorem envInitFail dirwatch_init rfl
      ⟨by decide, by decide, by decide, by decide, rfl, rfl⟩).1 (by decide)).1,
   ((C7_theorem envTimerFail dirwatch_init rfl
      ⟨by decide, by decide, by decide, by decide, rfl, rfl⟩).2 (by decide)).1⟩

/-- C9: `dirwatch_set_enabled FALSE` never touches the quiet flag, and
neither does a subsequent `dirwatch_set_enabled TRUE`: a quiet watcher
that is disabled and later re-enabled is still quiet. -/
theorem C9_theorem (s : DWState) (env envB : Env) :
    (dirwatch_set_enabled false env s).1.watcher_quiet = s.watcher_quiet ∧
    (dirwatch_set_enabled true envB (dirwatch_set_enabled false env s).1).1.watcher_quiet
      = s.watcher_quiet :=
  ⟨dirwatch_set_enabled_quiet false env s,
    (dirwatch_set_enabled_quiet true envB _).trans
      (dirwatch_set_enabled_quiet false env s)⟩

/-- C10: while the watcher is disabled, `dirwatch_set_quiet` is a complete
no-op for either argument: the state is unchanged and nothing happens. -/
theorem C10_theorem (b : Bool) (env : Env) (s : DWState)
    (h : s.watcher_enabled = false) :
    dirwatch_set_quiet b env s = (s, []) := by
  unfold dirwatch_set_quiet
  rw [if_pos (Or.inl h)]

/-- C10 (witness): the theorem at the initial state. -/
theorem C10_witness : dirwatch_set_quiet true envBoot dirwatch_init = (dirwatch_init, []) :=
  C10_theorem true envBoot dirwatch_init rfl

theorem dirwatch_apply_pending_armed (env : Env) (s : DWState) (h : 0 ≤ s.timer_fd) :
    (dirwatch_apply_pending env s).1.timer_armed = false := by
  unfold dirwatch_apply_pending dirwatch_disarm_timer
  dsimp only
  rw [if_pos h]

theorem dirwatch_apply_pending_counts (env : Env) (s : DWState)
    (hl : env.leftPanelPresent = true) (hr : env.rightPanelPresent = true) :
    (dirwatch_apply_pending env s).2.count DWEvent.reloadLeft
      = (if s.pending_left then 1 else 0) ∧
    (dirwatch_apply_pending env s).2.count DWEvent.reloadRight
      = (if s.pending_right then 1 else 0) ∧
    (dirwatch_apply_pending env s).2.count DWEvent.repaint
      = (if s.pending_left || s.pending_right then 1 else 0) := by
  unfold dirwatch_apply_pending dirwatch_disarm_timer
  dsimp only
  rw [hl, hr]
  rcases le_or_lt 0 s.timer_fd with h | h
  · rw [if_pos h]
    dsimp only
    cases hpl : s.pending_left <;> cases hpr : s.pending_right <;>
      exact ⟨by decide, by decide, by decide⟩
  · rw [if_neg (not_le.mpr h)]
    dsimp only
    cases hpl : s.pending_left <;> cases hpr : s.pending_right <;>
      exact ⟨by decide, by decide, by decide⟩

theorem dirwatch_callback_pending (fd : Int) (evs : List Int) (s : DWState)
    (h : fd = s.inotify_fd) :
    (dirwatch_callback fd evs s).1.pending_left
      = (s.pending_left || evs.any (fun w => w == s.wd_left)) ∧
    (dirwatch_callback fd evs s).1.pending_right
      = (s.pending_right || evs.any (fun w => w == s.wd_right)) := by
  subst h
  unfold dirwatch_callback
  rw [if_neg (by simp)]
  dsimp only
  split
  · have hf := dirwatch_arm_timer_frame
      { s with
        pending_left := s.pending_left || evs.any (fun w => w == s.wd_left)
        pending_right := s.pending_right || evs.any (fun w => w == s.wd_right) }
    exact ⟨hf.2.2.2.2.2.2.2.2.1, hf.2.2.2.2.2.2.2.2.2⟩
  · exact ⟨rfl, rfl⟩

/-- C3 (counterexample): `dirwatch_panel_dir_changed` does not restrict its
re-evaluation to the given slot — from the reachable post-enable state, a
call for the left panel rebinds the right slot when the right panel's
directory has changed. -/
theorem C3_cex : ∃ s : DWState, Reach s ∧
    (dirwatch_panel_dir_changed Slot.left envMove s).1.right_path ≠ s.right_path := by
  refine ⟨stateBoot, reach_stateBoot, ?_⟩
  decide

/-- C3 (amended): `dirwatch_panel_dir_changed` is a no-op when disabled;
when enabled it ignores its panel argument and re-runs the watch update
for both slots, so a slot's binding is guaranteed unchanged only when that
slot's eligibility outcome already matches its stored path. -/
theorem C3_theorem (s : DWState) (env : Env) (sl slB : Slot) :
    (s.watcher_enabled = false → dirwatch_panel_dir_changed sl env s = (s, [])) ∧
    dirwatch_panel_dir_changed sl env s = dirwatch_panel_dir_changed slB env s ∧
    (∀ p : String, env.rightEligible = some p → s.right_path = some p →
      (dirwatch_panel_dir_changed sl env s).1.wd_right = s.wd_right ∧
      (dirwatch_panel_dir_changed sl env s).1.right_path = s.right_path) ∧
    (∀ p : String, env.leftEligible = some p → s.left_path = some p →
      (dirwatch_panel_dir_changed sl env s).1.wd_left = s.wd_left ∧
      (dirwatch_panel_dir_changed sl env s).1.left_path = s.left_path) := by
  refine ⟨?_, rfl, ?_, ?_⟩
  · intro h
    unfold dirwatch_panel_dir_changed
    rw [if_pos h]
  · intro p hp hsp
    unfold dirwatch_panel_dir_changed
    split
    · exact ⟨rfl, rfl⟩
    · unfold dirwatch_update_watches
      split
      · exact ⟨rfl, rfl⟩
      · dsimp only
        have hlf := dirwatch_update_left_frame env s
        rw [dirwatch_update_right_matched env (dirwatch_update_left env s).1 p hp
          (hlf.2.2.2.2.2.2.2.2.trans hsp)]
        exact ⟨hlf.2.2.2.2.2.2.2.1, hlf.2.2.2.2.2.2.2.2⟩
  · intro p hp hsp
    unfold dirwatch_panel_dir_changed
    split
    · exact ⟨rfl, rfl⟩
    · unfold dirwatch_update_watches
      split
      · exact ⟨rfl, rfl⟩
      · dsimp only
        rw [dirwatch_update_left_matched env s p hp hsp]
        have hrf := dirwatch_update_right_frame env s
        exact ⟨hrf.2.2.2.2.2.2.2.1, hrf.2.2.2.2.2.2.2.2⟩

/-- C3 (witness): the amended theorem at the initial state (no-op part)
and at the post-enable state (frame part for the unchanged right slot). -/
theorem C3_witness :
    dirwatch_panel_dir_changed Slot.left envBoot dirwatch_init = (dirwatch_init, []) ∧
    (dirwatch_panel_dir_changed Slot.left envBoot stateBoot).1.wd_right
      = stateBoot.wd_right :=
  ⟨(C3_theorem dirwatch_init envBoot Slot.left Slot.right).1 rfl,
   ((C3_theorem stateBoot envBoot Slot.left Slot.right).2.2.1 "/var" rfl (by decide)).1⟩

/-- C4: when a slot is eligible with the same path as its existing binding
the per-slot update block is a complete no-op (no watch removed or added,
nothing stored), the full update leaves that slot's handle and path
untouched, and running the update twice in a row is idempotent: the second
run changes nothing and performs no kernel watch operation at all. -/
theorem C4_theorem (env : Env) (s : DWState) (p : String) :
    (env.leftEligible = some p → s.left_path = some p →
      dirwatch_update_left env s = (s, [])) ∧
    (env.rightEligible = some p → s.right_path = some p →
      dirwatch_update_right env s = (s, [])) ∧
    (env.leftEligible = some p → s.left_path = some p →
      (dirwatch_update_watches env s).1.wd_left = s.wd_left ∧
      (dirwatch_update_watches env s).1.left_path = s.left_path) ∧
    dirwatch_update_watches env (dirwatch_update_watches env s).1
      = ((dirwatch_update_watches env s).1, []) := by
  refine ⟨fun h1 h2 => dirwatch_update_left_matched env s p h1 h2,
    fun h1 h2 => dirwatch_update_right_matched env s p h1 h2, ?_,
    dirwatch_update_watches_idem env s⟩
  intro h1 h2
  unfold dirwatch_update_watches
  split
  · exact ⟨rfl, rfl⟩
  · dsimp only
    rw [dirwatch_update_left_matched env s p h1 h2]
    have hrf := dirwatch_update_right_frame env s
    exact ⟨hrf.2.2.2.2.2.2.2.1, hrf.2.2.2.2.2.2.2.2⟩

/-- C4 (witness): the theorem at the post-enable state, whose left binding
already matches `envBoot`. -/
theorem C4_witness :
    dirwatch_update_left envBoot stateBoot = (stateBoot, []) ∧
    dirwatch_update_watches envBoot (dirwatch_update_watches envBoot stateBoot).1
      = ((dirwatch_update_watches envBoot stateBoot).1, []) :=
  ⟨(C4_theorem envBoot stateBoot "/tmp").1 rfl (by decide),
   (C4_theorem envBoot stateBoot "/tmp").2.2.2⟩

/-- C5: on timer expiry (callback invoked with the live timer descriptor),
if quiet mode is active the timer is disarmed and the pending flags are
left untouched; otherwise the pending flags are applied: each flagged
slot's reload counts once in the emitted trace, the repaint counts exactly
once when any slot was flagged, both pending flags are cleared, and the
timer is disarmed. -/
theorem C5_theorem (s : DWState) (env : Env) (fd : Int)
    (hfd : fd = s.timer_fd) (htf : 0 ≤ s.timer_fd)
    (hlp : env.leftPanelPresent = true) (hrp : env.rightPanelPresent = true) :
    (s.watcher_quiet = true →
      (dirwatch_timer_callback fd env s).1 = { s with timer_armed := false } ∧
      (dirwatch_timer_callback fd env s).2 = [DWEvent.disarmTimer]) ∧
    (s.watcher_quiet = false →
      (dirwatch_timer_callback fd env s).1.pending_left = false ∧
      (dirwatch_timer_callback fd env s).1.pending_right = false ∧
      (dirwatch_timer_callback fd env s).1.timer_armed = false ∧
      (dirwatch_timer_callback fd env s).2.count DWEvent.reloadLeft
        = (if s.pending_left then 1 else 0) ∧
      (dirwatch_timer_callback fd env s).2.count DWEvent.reloadRight
        = (if s.pending_right then 1 else 0) ∧
      (dirwatch_timer_callback fd env s).2.count DWEvent.repaint
        = (if s.pending_left || s.pending_right then 1 else 0)) := by
  subst hfd
  unfold dirwatch_timer_callback
  rw [if_neg (by simp)]
  constructor
  · intro hq
    rw [if_pos hq]
    unfold dirwatch_disarm_timer
    rw [if_pos htf]
    exact ⟨rfl, rfl⟩
  · intro hq
    rw [if_neg (by simp [hq])]
    have hf := dirwatch_apply_pending_frame env s
    have hc := dirwatch_apply_pending_counts env s hlp hrp
    exact ⟨hf.2.2.2.2.2.2.2.2.1, hf.2.2.2.2.2.2.2.2.2,
      dirwatch_apply_pending_armed env s htf, hc.1, hc.2.1, hc.2.2⟩

/-- C5 (witness): the theorem at the reachable state with a pending left
slot and a live timer. -/
theorem C5_witness :
    (dirwatch_timer_callback 4 envBoot statePending).1.pending_left = false ∧
    (dirwatch_timer_callback 4 envBoot statePending).2.count DWEvent.reloadLeft
      = (if statePending.pending_left then 1 else 0) :=
  ⟨((C5_theorem statePending envBoot 4 rfl (by decide) rfl rfl).2 rfl).1,
   ((C5_theorem statePending envBoot 4 rfl (by decide) rfl rfl).2 rfl).2.2.2.1⟩

/-- `stateBoot` after quiet mode is switched on. -/
def stateQuiet : DWState := (dirwatch_set_quiet true envBoot stateBoot).1

/-- `stateQuiet` after one inotify record for the left panel's watch. -/
def stateQuietPending : DWState := (dirwatch_callback 3 [5] stateQuiet).1

/-- `stateQuietPending` after the watcher is disabled: still quiet, still
pending, but disabled. -/
def stateDisabledQP : DWState := (dirwatch_set_enabled false envBoot stateQuietPending).1

theorem reach_stateDisabledQP : Reach stateDisabledQP :=
  Reach.step
    (Reach.step
      (Reach.step reach_stateBoot (Step.quietToggle stateBoot true envBoot))
      (Step.notifReadable stateQuiet 3 [5]))
    (Step.enable stateQuietPending false envBoot)

/-- C6 (counterexample): the claim that quitting quiet mode always applies
pending changes is false for disabled states — there is a reachable state
that is quiet with a pending flag set (quiet watcher disabled mid-flight)
on which `dirwatch_set_quiet FALSE` does nothing: quiet stays on and no
reload is emitted. -/
theorem C6_cex : ∃ s : DWState, Reach s ∧
    s.watcher_quiet = true ∧ s.pending_left = true ∧
    (dirwatch_set_quiet false envBoot s).1.watcher_quiet = true ∧
    (dirwatch_set_quiet false envBoot s).2.count DWEvent.reloadLeft = 0 :=
  ⟨stateDisabledQP, reach_stateDisabledQP, by decide, by decide, by decide, by decide⟩

/-- C6 (amended): for an enabled watcher, `dirwatch_set_quiet FALSE` leaves
quiet mode and synchronously applies any pending flags — each flagged
slot's reload counts exactly once in the emitted trace and the flags are
cleared — while `set_quiet(false)` when already normal and
`set_quiet(true)` when already quiet are no-ops. -/
theorem C6_theorem (s : DWState) (env : Env) :
    (s.watcher_quiet = false → dirwatch_set_quiet false env s = (s, [])) ∧
    (s.watcher_quiet = true → dirwatch_set_quiet true env s = (s, [])) ∧
    (s.watcher_enabled = true → s.watcher_quiet = true →
      env.leftPanelPresent = true → env.rightPanelPresent = true →
      (dirwatch_set_quiet false env s).1.watcher_quiet = false ∧
      (dirwatch_set_quiet false env s).1.pending_left = false ∧
      (dirwatch_set_quiet false env s).1.pending_right = false ∧
      (dirwatch_set_quiet false env s).2.count DWEvent.reloadLeft
        = (if s.pending_left then 1 else 0) ∧
      (dirwatch_set_quiet false env s).2.count DWEvent.reloadRight
        = (if s.pending_right then 1 else 0) ∧
      (dirwatch_set_quiet false env s).2.count DWEvent.repaint
        = (if s.pending_left || s.pending_right then 1 else 0)) := by
  refine ⟨?_, ?_, ?_⟩
  · intro h
    unfold dirwatch_set_quiet
    rw [if_pos (Or.inr h)]
  · intro h
    unfold dirwatch_set_quiet
    rw [if_pos (Or.inr h)]
  · intro hen hq hlp hrp
    unfold dirwatch_set_quiet
    rw [if_neg (by simp [hen, hq])]
    dsimp only
    by_cases hp : (s.pending_left || s.pending_right) = true
    · rw [if_pos ⟨rfl, hp⟩]
      have hf := dirwatch_apply_pending_frame env { s with watcher_quiet := false }
      have hc := dirwatch_apply_pending_counts env { s with watcher_quiet := false } hlp hrp
      exact ⟨hf.2.2.2.2.2.2.2.1, hf.2.2.2.2.2.2.2.2.1, hf.2.2.2.2.2.2.2.2.2,
        hc.1, hc.2.1, hc.2.2⟩
    · rw [if_neg (fun hcon => hp hcon.2)]
      have h2 : s.pending_left = false ∧ s.pending_right = false := by
        simpa using hp
      exact ⟨rfl, h2.1, h2.2, by simp [h2.1], by simp [h2.2], by simp [h2.1, h2.2]⟩

/-- C6 (witness): the amended theorem at the reachable quiet state with a
pending left slot. -/
theorem C6_witness :
    (dirwatch_set_quiet false envBoot stateQuietPending).1.watcher_quiet = false ∧
    (dirwatch_set_quiet false envBoot stateQuietPending).2.count DWEvent.reloadLeft
      = (if stateQuietPending.pending_left then 1 else 0) :=
  ⟨((C6_theorem stateQuietPending envBoot).2.2 rfl rfl rfl rfl).1,
   ((C6_theorem stateQuietPending envBoot).2.2 rfl rfl rfl rfl).2.2.2.1⟩

/-- C8: the inotify drain compares every record's watch descriptor against
both slots' current handles independently — the resulting pending flags
are the old flags OR-ed with a per-slot match over the drained records; in
particular, when both slots hold the same handle a single record sets both
flags, and a record matching neither handle changes neither flag. -/
theorem C8_theorem (s : DWState) (fd : Int) (evs : List Int)
    (hfd : fd = s.inotify_fd) :
    ((dirwatch_callback fd evs s).1.pending_left
      = (s.pending_left || evs.any (fun w => w == s.wd_left))) ∧
    ((dirwatch_callback fd evs s).1.pending_right
      = (s.pending_right || evs.any (fun w => w == s.wd_right))) ∧
    (s.wd_left = s.wd_right → 0 ≤ s.wd_left →
      (dirwatch_callback fd [s.wd_left] s).1.pending_left = true ∧
      (dirwatch_callback fd [s.wd_left] s).1.pending_right = true) ∧
    (∀ w : Int, w ≠ s.wd_left → w ≠ s.wd_right →
      (dirwatch_callback fd [w] s).1.pending_left = s.pending_left ∧
      (dirwatch_callback fd [w] s).1.pending_right = s.pending_right) := by
  have hgen := dirwatch_callback_pending fd evs s hfd
  refine ⟨hgen.1, hgen.2, ?_, ?_⟩
  · intro heq _
    have hone := dirwatch_callback_pending fd [s.wd_left] s hfd
    rw [hone.1, hone.2]
    constructor
    · simp
    · simp [heq]
  · intro w hw1 hw2
    have hone := dirwatch_callback_pending fd [w] s hfd
    rw [hone.1, hone.2]
    constructor
    · simp [hw1]
    · simp [hw2]

/-- C8 (witness): the theorem at the post-enable state, drained with the
left slot's watch descriptor. -/
theorem C8_witness :
    (dirwatch_callback 3 [5] stateBoot).1.pending_left
      = (stateBoot.pending_left || [(5 : Int)].any (fun w => w == stateBoot.wd_left)) :=
  (C8_theorem stateBoot 3 [5] rfl).1
